import Mathlib

set_option maxRecDepth 1000000

/-!
Verification of the SJA1110 switch-configuration generators (hwkim3330/sja1110).

Shallow embedding of the Python sources into Lean 4:
byte buffers are `List Nat` (each element a byte value `< 256`), multi-byte
fields are encoded with explicit little-endian / big-endian byte lists, and
`struct.pack_into` / slice assignment is modelled by `wr` (write-at-offset).
All checksum code in the repository calls either its own bitwise loop
(`sja1110_fix_crc.calculate_sja1110_crc`) or Python's `zlib.crc32`; both are
embedded below over `Nat` with explicit masking.
-/

namespace SJA1110

/-! ## Byte-buffer primitives -/

/-- Little-endian 4-byte encoding of a 32-bit value, as in `struct.pack('<I', v)`. -/
def le32 (v : Nat) : List Nat :=
  [v % 256, v / 256 % 256, v / 65536 % 256, v / 16777216 % 256]

/-- Little-endian 2-byte encoding, as in `struct.pack('<H', v)`. -/
def le16 (v : Nat) : List Nat :=
  [v % 256, v / 256 % 256]

/-- Little-endian 8-byte encoding, as in `struct.pack('<Q', v)`. -/
def le64 (v : Nat) : List Nat :=
  [v % 256, v / 256 % 256, v / 65536 % 256, v / 16777216 % 256,
   v / 2 ^ 32 % 256, v / 2 ^ 40 % 256, v / 2 ^ 48 % 256, v / 2 ^ 56 % 256]

/-- Big-endian 4-byte encoding, as in `struct.pack('>I', v)`. -/
def be32 (v : Nat) : List Nat :=
  [v / 16777216 % 256, v / 65536 % 256, v / 256 % 256, v % 256]

/-- Big-endian 8-byte encoding, as in `struct.pack('>Q', v)`. -/
def be64 (v : Nat) : List Nat :=
  [v / 2 ^ 56 % 256, v / 2 ^ 48 % 256, v / 2 ^ 40 % 256, v / 2 ^ 32 % 256,
   v / 16777216 % 256, v / 65536 % 256, v / 256 % 256, v % 256]

/-- Overwrite `bs` into buffer `l` starting at offset `off`, keeping the rest;
models Python slice assignment `l[off:off+len(bs)] = bs` on a buffer whose
length is at least `off + bs.length`. -/
def wr (l : List Nat) (off : Nat) (bs : List Nat) : List Nat :=
  l.take off ++ bs ++ l.drop (off + bs.length)

/-- Read a little-endian 32-bit value at offset `off`, as in
`struct.unpack('<I', l[off:off+4])`. -/
def readLE32 (l : List Nat) (off : Nat) : Nat :=
  l.getD off 0 + 256 * l.getD (off + 1) 0 + 65536 * l.getD (off + 2) 0 +
    16777216 * l.getD (off + 3) 0

/-- Read a little-endian 16-bit value at offset `off`. -/
def readLE16 (l : List Nat) (off : Nat) : Nat :=
  l.getD off 0 + 256 * l.getD (off + 1) 0

/-! ## Checksum engine

`sja1110_fix_crc.calculate_sja1110_crc` runs the byte-reflected CRC-32 loop
(feedback constant 0xEDB88320, initial value 0xFFFFFFFF, final complement)
over `data[16:]`. `zlib.crc32` — called by every other generator in the
repository — is the same loop over its whole argument. -/

/-- One bit of the reflected CRC-32 loop from `calculate_sja1110_crc`:
`if crc & 1: crc = (crc >> 1) ^ 0xEDB88320 else: crc >>= 1`. -/
def crcBitStep (crc : Nat) : Nat :=
  if crc &&& 1 = 1 then (crc >>> 1) ^^^ 0xEDB88320 else crc >>> 1

/-- One byte of the loop: `crc ^= byte` followed by eight bit steps. -/
def crcByteStep (crc b : Nat) : Nat :=
  crcBitStep^[8] (crc ^^^ b)

/-- `sja1110_fix_crc.calculate_sja1110_crc(data)`: CRC of `data[16:]`,
seeded `0xFFFFFFFF`, with `crc ^ 0xFFFFFFFF` returned. -/
def calculate_sja1110_crc (data : List Nat) : Nat :=
  ((data.drop 16).foldl crcByteStep 0xFFFFFFFF) ^^^ 0xFFFFFFFF

/-- Python's `zlib.crc32(data) & 0xFFFFFFFF`, modelled by its documented
algorithm (standard IEEE CRC-32: reflected polynomial 0xEDB88320, initial
value 0xFFFFFFFF, final complement). -/
def zlib_crc32 (data : List Nat) : Nat :=
  (data.foldl crcByteStep 0xFFFFFFFF) ^^^ 0xFFFFFFFF

/-- Bit-reversal of the low `w` bits of `x`. -/
def rev : Nat → Nat → Nat
  | 0, _ => 0
  | n + 1, x => 2 ^ n * (x % 2) + rev n (x / 2)

/-- Modelled from the spec: one bit of a CRC-32 engine that uses polynomial
0x04C11DB7 directly (most-significant-bit-first folding). -/
def specBitStep (m : Nat) : Nat :=
  if m.testBit 31 then ((m <<< 1) % 2 ^ 32) ^^^ 0x04C11DB7 else (m <<< 1) % 2 ^ 32

/-- Modelled from the spec: fold one input byte, "bit-reversed before
folding", into the top of the accumulator, then run eight bit steps. -/
def specByteStep (m b : Nat) : Nat :=
  specBitStep^[8] (m ^^^ (rev 8 b <<< 24))

/-- Modelled from the spec (§4.1): "a CRC32 using polynomial 0x04C11DB7,
operating least-significant-bit-first with each input byte bit-reversed
before folding, seeded at 0xFFFFFFFF, and the final accumulator bit-reversed
and complemented before return". -/
def crc32_spec_variant (data : List Nat) : Nat :=
  rev 32 (data.foldl specByteStep 0xFFFFFFFF) ^^^ 0xFFFFFFFF

/-! ## `sja1110_fix_crc.fix_goldvip_crc` — CRC patching

The function zeroes `data[12:16]`, computes `calculate_sja1110_crc` over the
buffer, writes the result back at `data[12:16]`, and then — if the original
GoldVIP binary is found on disk — overwrites the field again with that
binary's previously observed CRC. File availability and the observed CRC are
inputs of the model. -/

/-- `data[12:16] = struct.pack('<I', 0)` before the CRC computation. -/
def fixCrcZeroed (data : List Nat) : List Nat :=
  wr data 12 (le32 0)

/-- The buffer after `new_crc` is computed and written at `data[12:16]`. -/
def fixCrcPatched (data : List Nat) : List Nat :=
  wr (fixCrcZeroed data) 12 (le32 (calculate_sja1110_crc (fixCrcZeroed data)))

/-- Final buffer written by `fix_goldvip_crc`: when the original GoldVIP
binary exists, its stored CRC replaces the computed one. -/
def fix_goldvip_data (goldvipAvailable : Bool) (origCrc : Nat)
    (data : List Nat) : List Nat :=
  if goldvipAvailable then wr (fixCrcPatched data) 12 (le32 origCrc)
  else fixCrcPatched data

/-! ## `sja1110_minimal_frer.analyze_original_detailed` — CRC-range guessing -/

/-- The candidate CRC byte ranges tried in order by the analyzer. -/
inductive CrcMethod where
  | range16
  | range12
  | range4_12
  | unknown
  deriving DecidableEq

/-- `struct.unpack('<I', data[12:16])`, the header field tested against each
candidate checksum. -/
def field3 (data : List Nat) : Nat := readLE32 data 12

/-- `analyze_original_detailed`: tries `zlib.crc32(data[16:])`, then
`zlib.crc32(data[12:])`, then `zlib.crc32(data[4:12])`, each compared with
`field3`, returning the first method that matches. -/
def crc_method (data : List Nat) : CrcMethod :=
  if zlib_crc32 (data.drop 16) = field3 data then CrcMethod.range16
  else if zlib_crc32 (data.drop 12) = field3 data then CrcMethod.range12
  else if zlib_crc32 ((data.drop 4).take 8) = field3 data then CrcMethod.range4_12
  else CrcMethod.unknown

/-! ## `sja1110_proper_config.SJA1110ProperConfig` -/

namespace ProperConfig

def NUM_PORTS : Nat := 11

def DEVICE_ID : Nat := 0xB700030F

/-- `add_table_header`: 12-byte table header `<I table_id, <H entry_count,
<H data_size, <I crc(0)`. -/
def add_table_header (table_id entry_count data_size : Nat) : List Nat :=
  le32 table_id ++ le16 entry_count ++ le16 data_size ++ le32 0

/-- Per-port `reach_port`/`bc_domain` value of `create_l2_forwarding_table`
(the two fields are always assigned together in the source). -/
def l2_mask (port : Nat) : Nat :=
  if port = 4 then (1 <<< 2) ||| (1 <<< 3)
  else if port = 2 then 0x7FF
  else if port = 3 then 0x7FF
  else 0x7FF

/-- `create_l2_forwarding_table`: 8-byte entry per port,
`<I reach_port, <I bc_domain`, behind the 12-byte header. -/
def create_l2_forwarding_table : List Nat :=
  let table_data := (List.range NUM_PORTS).foldl
    (fun acc port => acc ++ le32 (l2_mask port) ++ le32 (l2_mask port)) []
  add_table_header 0x08 NUM_PORTS table_data.length ++ table_data

/-- One 32-byte entry of `create_mac_config_table`. -/
def mac_entry (port : Nat) : List Nat :=
  let e := List.replicate 32 0
  let e := wr e 0 (le32 1)
  let e := wr e 4 (le32 1)
  let e := wr e 8 (le32 0)
  if port = 2 ∨ port = 3 then wr e 12 (le32 0x80000000) else e

def create_mac_config_table : List Nat :=
  let table_data := (List.range NUM_PORTS).foldl
    (fun acc port => acc ++ mac_entry port) []
  add_table_header 0x09 NUM_PORTS table_data.length ++ table_data

def create_l2_forwarding_params : List Nat :=
  let table_data := le32 0xFFF ++ le32 1 ++ le32 0
  add_table_header 0x0E 1 table_data.length ++ table_data

def create_general_params : List Nat :=
  let p := List.replicate 44 0
  let p := wr p 0 (le32 1)
  let p := wr p 8 (le32 DEVICE_ID)
  let p := wr p 16 (le32 0x180)
  let p := wr p 20 (le32 0x180)
  add_table_header 0x11 1 p.length ++ p

def create_vlan_lookup_table : List Nat :=
  let table_data := le16 1 ++ le16 0x7FF ++ le16 0x7FF ++ le16 0
  add_table_header 0x07 1 table_data.length ++ table_data

def create_xmii_params : List Nat :=
  let table_data := le32 0
  add_table_header 0x4E 1 table_data.length ++ table_data

/-- The configuration before the CRC field is filled: 16-byte device header
(`<I device_id, <I version 0x100, <I timestamp 0, <I crc(0)`) followed by the
six tables in source order. -/
def raw_configuration : List Nat :=
  le32 DEVICE_ID ++ le32 0x100 ++ le32 0 ++ le32 0 ++
    create_l2_forwarding_table ++ create_mac_config_table ++
    create_l2_forwarding_params ++ create_general_params ++
    create_vlan_lookup_table ++ create_xmii_params

/-- `zlib.crc32` over the whole configuration with the CRC field cleared. -/
def stored_crc : Nat := zlib_crc32 (wr raw_configuration 12 (le32 0))

/-- `generate_configuration`: the raw configuration with `stored_crc`
patched into bytes 12..15. -/
def generate_configuration : List Nat :=
  wr raw_configuration 12 (le32 stored_crc)

/-- `verify_configuration`: recompute `zlib.crc32` over the buffer with the
CRC field cleared and compare with the stored field. -/
def verify_configuration (config : List Nat) : Bool :=
  zlib_crc32 (wr config 12 (le32 0)) == readLE32 config 12

end ProperConfig

/-! ## `sja1110_goldvip_fix.create_goldvip_switch_firmware` -/

namespace Goldvip

/-- The fixed 136-byte body written before the fill loop: header words, port
configurations, L2 forwarding, MAC, VLAN, FRER stream and static-route
words, in source order. -/
def fixed_part : List Nat :=
  le32 0x0f0300b7 ++ le32 0x00000086 ++ le32 0xDD100000 ++ le32 0x86E02CE8 ++
  le32 0xFFFF0000 ++ le32 0x007FFF9F ++ le32 0x9F7FFF84 ++ le32 0x00000000 ++
  le32 0xFFFF0000 ++ le32 0x007FFF9F ++ le32 0x9F7FFF86 ++ le32 0x00000000 ++
  le32 0xFFFF0000 ++ le32 0x007FFF9F ++ le32 0x9F7FFF48 ++ le32 0x00000000 ++
  le32 0x00000004 ++ le32 0x0000000C ++
  le32 0xFFFFFFFF ++ le32 0xFFFFFFFF ++ le32 0x00000001 ++ le32 0x0000000C ++
  le32 0x00000001 ++ le32 0x000007FF ++ le32 0x0000001C ++
  le32 0x00000001 ++ le32 0x00000010 ++ le32 0x0000000C ++ le32 0xC1F10000 ++
  le32 0x00000100 ++
  le32 0x00000004 ++ le32 0x0000000C ++ le32 0xFFFFFFFF ++ le32 0x00000007

def config_pattern : List Nat :=
  [0x00ECFFFF, 0x9FFF7F00, 0x00ECFFFF, 0x9FFF7F02,
   0x00ECFFFF, 0x9FFF7F04, 0x00ECFFFF, 0x9FFF7F06]

/-- The `while len(fw) < 2236` fill loop, one 4-byte word per iteration,
cycling through `config_pattern`; `fuel` bounds the iteration count. -/
def fill (fw : List Nat) (idx fuel : Nat) : List Nat :=
  match fuel with
  | 0 => fw
  | fuel + 1 =>
    if fw.length < 2236 then
      fill (fw ++ le32 (config_pattern.getD (idx % 8) 0)) (idx + 1) fuel
    else fw

/-- `create_goldvip_switch_firmware`: fixed body, fill loop, `fw[:2236]`. -/
def create_goldvip_switch_firmware : List Nat :=
  (fill fixed_part 0 2236).take 2236

end Goldvip

/-! ## `sja1110_ultrathink_frer.SJA1110FRERFirmware` -/

namespace Ultrathink

def DEVICE_ID : Nat := 0xB700030E

/-- `create_device_header(timestamp)`: `>I device_id, >I 0x10,
>Q timestamp, >I feature flags, 16 reserved zero bytes` — 36 bytes. -/
def create_device_header (timestamp : Nat) : List Nat :=
  be32 DEVICE_ID ++ be32 0x00000010 ++ be64 timestamp ++
    be32 ((1 <<< 0) ||| (1 <<< 1) ||| (1 <<< 2) ||| (1 <<< 3) ||| (1 <<< 4)) ++
    List.replicate 16 0

/-- Patch `zlib.crc32(table[16:])` into bytes 12..15 of a raw table. -/
def patch_table_crc (raw : List Nat) : List Nat :=
  wr raw 12 (le32 (zlib_crc32 (raw.drop 16)))

/-- 16-byte table header `<I id, <I entry_count, <I entry_size, <I crc(0)`. -/
def table_header (table_id entry_count entry_size : Nat) : List Nat :=
  le32 table_id ++ le32 entry_count ++ le32 entry_size ++ le32 0

/-- One 32-byte entry of the FRER stream-identification table. -/
def stream_ident_entry (sid : Nat) : List Nat :=
  let e := List.replicate 32 0
  let e := wr e 0 (le16 sid)
  let e := wr e 2 [0x03]
  let e := wr e 3 [sid % 8]
  let e := if sid < 4 then wr e 4 [0x00, 0x11, 0x22, 0x33, 0x44, sid] else e
  let e := wr e 10 (le16 (100 + sid))
  let e := wr e 12 [0x01, 0x00, 0x5E, 0x00, 0x00, sid]
  let e := wr e 18 (le16 0x88F7)
  let e := wr e 20 (le16 (if sid < 4 then 0x7FF else 0x01E))
  wr e 22 [(1 <<< 0) ||| (1 <<< 1) ||| (if sid < 4 then 1 <<< 2 else 0)]

def create_frer_stream_identification_table : List Nat :=
  patch_table_crc (table_header 0x20 16 32 ++
    (List.range 16).foldl (fun acc sid => acc ++ stream_ident_entry sid) [])

/-- One 24-byte entry of the FRER sequence-generation table; streams 0..7
replicate from port 4 to ports 2 and 3. -/
def seq_gen_entry (sid : Nat) : List Nat :=
  let e := List.replicate 24 0
  let e := wr e 0 (le16 sid)
  let e := wr e 2 [0]
  let e := wr e 4 (le16 65535)
  let e := wr e 6 (le16 0)
  let e := wr e 8 [18]
  let e := wr e 10 (le16 (if sid < 8 then (1 <<< 2) ||| (1 <<< 3) else 0))
  let e := wr e 12 (le32 1000)
  let e := wr e 16 [0]
  wr e 17 [1]

def create_frer_sequence_generation_table : List Nat :=
  patch_table_crc (table_header 0x23 16 24 ++
    (List.range 16).foldl (fun acc sid => acc ++ seq_gen_entry sid) [])

/-- One 48-byte entry of the FRER sequence-recovery table. -/
def seq_recovery_entry (sid : Nat) : List Nat :=
  let e := List.replicate 48 0
  let e := wr e 0 (le16 sid)
  let e := wr e 2 [0]
  let e := wr e 4 (le16 256)
  let e := wr e 8 (le32 100000)
  let e := wr e 12 [1]
  let e := wr e 13 [1]
  let e := wr e 16 (le32 1000000)
  let e := wr e 20 (le32 (0x1000 + sid * 64))
  let e := wr e 24 (le16 5)
  let e := wr e 26 (le16 (if sid < 8 then 0x03 else 0))
  if e.getD 2 0 = 0 then wr e 32 (List.replicate 8 0xFF) else e

def create_frer_sequence_recovery_table : List Nat :=
  patch_table_crc (table_header 0x25 16 48 ++
    (List.range 16).foldl (fun acc sid => acc ++ seq_recovery_entry sid) [])

/-- `(speed, enabled, frer)` rows of the `port_configs` literal. -/
def port_configs : List (Nat × Bool × Bool) :=
  [(1000, true, false),
   (1000, true, true), (1000, true, true), (1000, true, true), (1000, true, true),
   (100, true, false), (100, true, false),
   (1000, false, false), (1000, false, false), (1000, false, false),
   (1000, false, false)]

/-- One 64-byte entry of the MAC/port-configuration table. -/
def port_config_entry (port_id : Nat) (cfg : Nat × Bool × Bool) : List Nat :=
  let e := List.replicate 64 0
  let e := wr e 0 [port_id]
  let e := wr e 1 [if cfg.2.1 then 1 else 0]
  let e := wr e 2 (le16 cfg.1)
  let e := wr e 4 [1]
  let e := wr e 5 [if cfg.2.2 then 1 else 0]
  let e := wr e 6 [1]
  let e := wr e 7 [if 1000 ≤ cfg.1 then 1 else 0]
  let e := wr e 8 (le16 1522)
  let e := wr e 10 (le16 1)
  let e := wr e 12 [8]
  let e := wr e 16 (le32 0)
  let e := wr e 20 (le32 0)
  if cfg.2.2 then
    let e := wr e 24 [14]
    if port_id = 2 then wr e 25 [0]
    else if port_id = 3 then wr e 25 [1]
    else if port_id = 4 then wr e 25 [0xFF]
    else e
  else e

def create_port_configuration_table : List Nat :=
  patch_table_crc (table_header 0x09 11 64 ++
    port_configs.enum.foldl (fun acc pc => acc ++ port_config_entry pc.1 pc.2) [])

/-- `(reachable, broadcast)` rows of the `forwarding_rules` literal. -/
def forwarding_rules : List (Nat × Nat) :=
  [(0x7FE, 0x7FE), (0x7FD, 0x7FD), (0x7FB, 0x001), (0x7F7, 0x001),
   (0x00C, 0x00C), (0x7EF, 0x7EF), (0x7DF, 0x7DF),
   (0x000, 0x000), (0x000, 0x000), (0x000, 0x000), (0x000, 0x000)]

/-- One 16-byte entry of the L2 forwarding table. -/
def l2_forwarding_entry (rule : Nat × Nat) : List Nat :=
  let e := List.replicate 16 0
  let e := wr e 0 (le16 rule.1)
  let e := wr e 2 (le16 rule.2)
  let e := wr e 4 (le16 1)
  wr e 6 [0x0F]

def create_l2_forwarding_table : List Nat :=
  patch_table_crc (table_header 0x08 11 16 ++
    forwarding_rules.foldl (fun acc rule => acc ++ l2_forwarding_entry rule) [])

/-- The single 128-byte entry of the general-parameters table. -/
def general_params_entry : List Nat :=
  let e := List.replicate 128 0
  let e := wr e 0 (le64 0x001122334455)
  let e := wr e 8 [0xFF]
  let e := wr e 9 [0]
  let e := wr e 10 [0xFF]
  let e := wr e 11 [1]
  let e := wr e 12 (le32 8)
  let e := wr e 16 (le32 300)
  let e := wr e 20 (le32 300)
  let e := wr e 24 (le32 ((1 <<< 0) ||| (1 <<< 1) ||| (1 <<< 2) ||| (1 <<< 3) |||
    (1 <<< 4) ||| (1 <<< 5)))
  let e := wr e 32 [1]
  let e := wr e 33 [16]
  let e := wr e 34 [8]
  wr e 36 (le16 0xF1C1)

def create_general_parameters_table : List Nat :=
  patch_table_crc (table_header 0x11 1 128 ++ general_params_entry)

/-- The switch configuration before padding: device header followed by the
six tables in `generate_complete_firmware` order. -/
def assembled_switch_config (timestamp : Nat) : List Nat :=
  create_device_header timestamp ++
  create_general_parameters_table ++
  create_port_configuration_table ++
  create_l2_forwarding_table ++
  create_frer_stream_identification_table ++
  create_frer_sequence_generation_table ++
  create_frer_sequence_recovery_table

/-- The switch half of `generate_complete_firmware`: pad with zero bytes when
shorter than 2236, then return `switch_fw[:2236]`. -/
def generate_complete_firmware_switch (timestamp : Nat) : List Nat :=
  let fw := assembled_switch_config timestamp
  (if fw.length < 2236 then fw ++ List.replicate (2236 - fw.length) 0 else fw).take 2236

end Ultrathink

/-- Simulation invariant used for the checksum-variant proof (C1): the
MSB-first accumulator `m` is the 32-bit reversal of the reflected
accumulator `c`. -/
def CrcRel (c m : Nat) : Prop :=
  c < 2 ^ 32 ∧ m < 2 ^ 32 ∧ ∀ i, i < 32 → m.testBit (31 - i) = c.testBit i


/-! ## Chunked evaluation of the two `ProperConfig` checksums

The CRC folds below are evaluated in 40-byte chunks so that each `decide`
stays within the elaborator's recursion budget. -/

def pzChunk1 : List Nat := [15, 3, 0, 183, 0, 1, 0, 0, 0, 0, 0, 0, 0, 0, 0, 0, 8, 0, 0, 0, 11, 0, 88, 0, 0, 0, 0, 0, 255, 7, 0, 0, 255, 7, 0, 0, 255, 7, 0, 0]


def pzChunk2 : List Nat := [255, 7, 0, 0, 255, 7, 0, 0, 255, 7, 0, 0, 255, 7, 0, 0, 255, 7, 0, 0, 12, 0, 0, 0, 12, 0, 0, 0, 255, 7, 0, 0, 255, 7, 0, 0, 255, 7, 0, 0]


def pzChunk3 : List Nat := [255, 7, 0, 0, 255, 7, 0, 0, 255, 7, 0, 0, 255, 7, 0, 0, 255, 7, 0, 0, 255, 7, 0, 0, 255, 7, 0, 0, 255, 7, 0, 0, 255, 7, 0, 0, 9, 0, 0, 0]


def pzChunk4 : List Nat := [11, 0, 96, 1, 0, 0, 0, 0, 1, 0, 0, 0, 1, 0, 0, 0, 0, 0, 0, 0, 0, 0, 0, 0, 0, 0, 0, 0, 0, 0, 0, 0, 0, 0, 0, 0, 0, 0, 0, 0]


def pzChunk5 : List Nat := [1, 0, 0, 0, 1, 0, 0, 0, 0, 0, 0, 0, 0, 0, 0, 0, 0, 0, 0, 0, 0, 0, 0, 0, 0, 0, 0, 0, 0, 0, 0, 0, 1, 0, 0, 0, 1, 0, 0, 0]


def pzChunk6 : List Nat := [0, 0, 0, 0, 0, 0, 0, 128, 0, 0, 0, 0, 0, 0, 0, 0, 0, 0, 0, 0, 0, 0, 0, 0, 1, 0, 0, 0, 1, 0, 0, 0, 0, 0, 0, 0, 0, 0, 0, 128]


def pzChunk7 : List Nat := [0, 0, 0, 0, 0, 0, 0, 0, 0, 0, 0, 0, 0, 0, 0, 0, 1, 0, 0, 0, 1, 0, 0, 0, 0, 0, 0, 0, 0, 0, 0, 0, 0, 0, 0, 0, 0, 0, 0, 0]


def pzChunk8 : List Nat := [0, 0, 0, 0, 0, 0, 0, 0, 1, 0, 0, 0, 1, 0, 0, 0, 0, 0, 0, 0, 0, 0, 0, 0, 0, 0, 0, 0, 0, 0, 0, 0, 0, 0, 0, 0, 0, 0, 0, 0]


def pzChunk9 : List Nat := [1, 0, 0, 0, 1, 0, 0, 0, 0, 0, 0, 0, 0, 0, 0, 0, 0, 0, 0, 0, 0, 0, 0, 0, 0, 0, 0, 0, 0, 0, 0, 0, 1, 0, 0, 0, 1, 0, 0, 0]


def pzChunk10 : List Nat := [0, 0, 0, 0, 0, 0, 0, 0, 0, 0, 0, 0, 0, 0, 0, 0, 0, 0, 0, 0, 0, 0, 0, 0, 1, 0, 0, 0, 1, 0, 0, 0, 0, 0, 0, 0, 0, 0, 0, 0]


def pzChunk11 : List Nat := [0, 0, 0, 0, 0, 0, 0, 0, 0, 0, 0, 0, 0, 0, 0, 0, 1, 0, 0, 0, 1, 0, 0, 0, 0, 0, 0, 0, 0, 0, 0, 0, 0, 0, 0, 0, 0, 0, 0, 0]


def pzChunk12 : List Nat := [0, 0, 0, 0, 0, 0, 0, 0, 1, 0, 0, 0, 1, 0, 0, 0, 0, 0, 0, 0, 0, 0, 0, 0, 0, 0, 0, 0, 0, 0, 0, 0, 0, 0, 0, 0, 0, 0, 0, 0]


def pzChunk13 : List Nat := [14, 0, 0, 0, 1, 0, 12, 0, 0, 0, 0, 0, 255, 15, 0, 0, 1, 0, 0, 0, 0, 0, 0, 0, 17, 0, 0, 0, 1, 0, 44, 0, 0, 0, 0, 0, 1, 0, 0, 0]


def pzChunk14 : List Nat := [0, 0, 0, 0, 15, 3, 0, 183, 0, 0, 0, 0, 128, 1, 0, 0, 128, 1, 0, 0, 0, 0, 0, 0, 0, 0, 0, 0, 0, 0, 0, 0, 0, 0, 0, 0, 0, 0, 0, 0]


def pzChunk15 : List Nat := [7, 0, 0, 0, 1, 0, 8, 0, 0, 0, 0, 0, 1, 0, 255, 7, 255, 7, 0, 0, 78, 0, 0, 0, 1, 0, 4, 0, 0, 0, 0, 0, 0, 0, 0, 0]


def pdChunk1 : List Nat := [8, 0, 0, 0, 11, 0, 88, 0, 0, 0, 0, 0, 255, 7, 0, 0, 255, 7, 0, 0, 255, 7, 0, 0, 255, 7, 0, 0, 255, 7, 0, 0, 255, 7, 0, 0, 255, 7, 0, 0]


def pdChunk2 : List Nat := [255, 7, 0, 0, 12, 0, 0, 0, 12, 0, 0, 0, 255, 7, 0, 0, 255, 7, 0, 0, 255, 7, 0, 0, 255, 7, 0, 0, 255, 7, 0, 0, 255, 7, 0, 0, 255, 7, 0, 0]


def pdChunk3 : List Nat := [255, 7, 0, 0, 255, 7, 0, 0, 255, 7, 0, 0, 255, 7, 0, 0, 255, 7, 0, 0, 9, 0, 0, 0, 11, 0, 96, 1, 0, 0, 0, 0, 1, 0, 0, 0, 1, 0, 0, 0]


def pdChunk4 : List Nat := [0, 0, 0, 0, 0, 0, 0, 0, 0, 0, 0, 0, 0, 0, 0, 0, 0, 0, 0, 0, 0, 0, 0, 0, 1, 0, 0, 0, 1, 0, 0, 0, 0, 0, 0, 0, 0, 0, 0, 0]


def pdChunk5 : List Nat := [0, 0, 0, 0, 0, 0, 0, 0, 0, 0, 0, 0, 0, 0, 0, 0, 1, 0, 0, 0, 1, 0, 0, 0, 0, 0, 0, 0, 0, 0, 0, 128, 0, 0, 0, 0, 0, 0, 0, 0]


def pdChunk6 : List Nat := [0, 0, 0, 0, 0, 0, 0, 0, 1, 0, 0, 0, 1, 0, 0, 0, 0, 0, 0, 0, 0, 0, 0, 128, 0, 0, 0, 0, 0, 0, 0, 0, 0, 0, 0, 0, 0, 0, 0, 0]


def pdChunk7 : List Nat := [1, 0, 0, 0, 1, 0, 0, 0, 0, 0, 0, 0, 0, 0, 0, 0, 0, 0, 0, 0, 0, 0, 0, 0, 0, 0, 0, 0, 0, 0, 0, 0, 1, 0, 0, 0, 1, 0, 0, 0]


def pdChunk8 : List Nat := [0, 0, 0, 0, 0, 0, 0, 0, 0, 0, 0, 0, 0, 0, 0, 0, 0, 0, 0, 0, 0, 0, 0, 0, 1, 0, 0, 0, 1, 0, 0, 0, 0, 0, 0, 0, 0, 0, 0, 0]


def pdChunk9 : List Nat := [0, 0, 0, 0, 0, 0, 0, 0, 0, 0, 0, 0, 0, 0, 0, 0, 1, 0, 0, 0, 1, 0, 0, 0, 0, 0, 0, 0, 0, 0, 0, 0, 0, 0, 0, 0, 0, 0, 0, 0]


def pdChunk10 : List Nat := [0, 0, 0, 0, 0, 0, 0, 0, 1, 0, 0, 0, 1, 0, 0, 0, 0, 0, 0, 0, 0, 0, 0, 0, 0, 0, 0, 0, 0, 0, 0, 0, 0, 0, 0, 0, 0, 0, 0, 0]


def pdChunk11 : List Nat := [1, 0, 0, 0, 1, 0, 0, 0, 0, 0, 0, 0, 0, 0, 0, 0, 0, 0, 0, 0, 0, 0, 0, 0, 0, 0, 0, 0, 0, 0, 0, 0, 1, 0, 0, 0, 1, 0, 0, 0]


def pdChunk12 : List Nat := [0, 0, 0, 0, 0, 0, 0, 0, 0, 0, 0, 0, 0, 0, 0, 0, 0, 0, 0, 0, 0, 0, 0, 0, 14, 0, 0, 0, 1, 0, 12, 0, 0, 0, 0, 0, 255, 15, 0, 0]


def pdChunk13 : List Nat := [1, 0, 0, 0, 0, 0, 0, 0, 17, 0, 0, 0, 1, 0, 44, 0, 0, 0, 0, 0, 1, 0, 0, 0, 0, 0, 0, 0, 15, 3, 0, 183, 0, 0, 0, 0, 128, 1, 0, 0]


def pdChunk14 : List Nat := [128, 1, 0, 0, 0, 0, 0, 0, 0, 0, 0, 0, 0, 0, 0, 0, 0, 0, 0, 0, 0, 0, 0, 0, 7, 0, 0, 0, 1, 0, 8, 0, 0, 0, 0, 0, 1, 0, 255, 7]


def pdChunk15 : List Nat := [255, 7, 0, 0, 78, 0, 0, 0, 1, 0, 4, 0, 0, 0, 0, 0, 0, 0, 0, 0]


/-! ## Bit-reversal lemmas -/

theorem rev_lt (w x : Nat) : rev w x < 2 ^ w := by
  induction w generalizing x with
  | zero => simp [rev]
  | succ n ih =>
    have hx : x % 2 ≤ 1 := Nat.le_of_lt_succ (Nat.mod_lt x (by norm_num))
    have h1 : 2 ^ n * (x % 2) ≤ 2 ^ n := by
      calc 2 ^ n * (x % 2) ≤ 2 ^ n * 1 := Nat.mul_le_mul_left _ hx
        _ = 2 ^ n := Nat.mul_one _
    have h2 := ih (x / 2)
    have : 2 ^ n * (x % 2) + rev n (x / 2) < 2 ^ n + 2 ^ n :=
      Nat.lt_of_le_of_lt (Nat.add_le_add_right h1 _) (Nat.add_lt_add_left h2 _)
    simpa [rev, Nat.pow_succ, Nat.two_mul, Nat.mul_comm] using this

theorem testBit_rev_lt {w i : Nat} (x : Nat) (h : i < w) :
    (rev w x).testBit i = x.testBit (w - 1 - i) := by
  induction w generalizing x i with
  | zero => omega
  | succ n ih =>
    have hrw : rev (n + 1) x = 2 ^ n * (x % 2) + rev n (x / 2) := rfl
    rcases Nat.lt_or_ge i n with hi | hi
    · -- low bits come from `rev n (x / 2)`
      have hr : rev n (x / 2) < 2 ^ n := rev_lt n (x / 2)
      have hmod : (2 ^ n * (x % 2) + rev n (x / 2)) % 2 ^ n = rev n (x / 2) := by
        rw [Nat.add_comm, Nat.add_mul_mod_self_left]
        exact Nat.mod_eq_of_lt hr
      have h1 : (rev n (x / 2)).testBit i
          = (2 ^ n * (x % 2) + rev n (x / 2)).testBit i := by
        conv_lhs => rw [← hmod]
        rw [Nat.testBit_mod_two_pow, decide_eq_true hi, Bool.true_and]
      rw [hrw, ← h1, ih _ hi, Nat.testBit_div_two]
      congr 1
      omega
    · -- the top bit is `x % 2`
      have hin : i = n := by omega
      subst hin
      rw [hrw, Nat.testBit_mul_two_pow_add_eq,
        Nat.testBit_lt_two_pow (rev_lt i (x / 2)), Bool.xor_false,
        show i + 1 - 1 - i = 0 from by omega, Nat.testBit_zero]
      exact decide_eq_decide.mpr (by omega)

theorem testBit_rev_ge {w i : Nat} (x : Nat) (h : w ≤ i) :
    (rev w x).testBit i = false :=
  Nat.testBit_lt_two_pow (Nat.lt_of_lt_of_le (rev_lt w x)
    (Nat.pow_le_pow_right (by norm_num) h))

/-! ## The reflected loop simulates the spec's MSB-first variant -/

theorem crcRel_init : CrcRel 0xFFFFFFFF 0xFFFFFFFF :=
  ⟨by norm_num, by norm_num, by decide⟩

theorem crcRel_bitStep {c m : Nat} (h : CrcRel c m) :
    CrcRel (crcBitStep c) (specBitStep m) := by
  obtain ⟨hc, hm, hrel⟩ := h
  have hpoly : ∀ i, i < 32 →
      (0x04C11DB7 : Nat).testBit (31 - i) = (0xEDB88320 : Nat).testBit i := by
    decide
  have htop : m.testBit 31 = c.testBit 0 := by
    simpa using hrel 0 (by norm_num)
  have hc0 : (c &&& 1 = 1) ↔ c.testBit 0 = true := by
    rw [Nat.and_one_is_mod, Nat.testBit_zero]
    simp
  have hshiftR : c >>> 1 < 2 ^ 32 :=
    Nat.lt_of_le_of_lt (by simpa [Nat.shiftRight_eq_div_pow] using Nat.div_le_self c 2) hc
  have hshiftL : (m <<< 1) % 2 ^ 32 < 2 ^ 32 := Nat.mod_lt _ (by norm_num)
  have hkey : ∀ i, i < 32 →
      ((m <<< 1) % 2 ^ 32).testBit (31 - i) = (c >>> 1).testBit i := by
    intro i hi
    rw [Nat.testBit_mod_two_pow, Nat.testBit_shiftLeft, Nat.testBit_shiftRight]
    rcases Nat.lt_or_ge i 31 with hi31 | hi31
    · rw [decide_eq_true (show 31 - i < 32 from by omega),
        decide_eq_true (show 31 - i ≥ 1 from by omega), Bool.true_and,
        Bool.true_and, show 31 - i - 1 = 31 - (i + 1) from by omega,
        hrel (i + 1) (by omega)]
      congr 1
      omega
    · have hi' : i = 31 := by omega
      subst hi'
      rw [decide_eq_false (show ¬ ((31:Nat) - 31 ≥ 1) from by omega),
        Bool.false_and, Bool.and_false,
        show (1 : Nat) + 31 = 32 from rfl]
      exact (Nat.testBit_lt_two_pow hc).symm
  by_cases hodd : c &&& 1 = 1
  · have hct : c.testBit 0 = true := hc0.mp hodd
    have hmt : m.testBit 31 = true := by rw [htop, hct]
    rw [crcBitStep, specBitStep, if_pos hodd, if_pos hmt]
    refine ⟨Nat.xor_lt_two_pow hshiftR (by norm_num),
            Nat.xor_lt_two_pow hshiftL (by norm_num), ?_⟩
    intro i hi
    rw [Nat.testBit_xor, Nat.testBit_xor, hkey i hi, hpoly i hi]
  · have hct : c.testBit 0 = false := by
      cases h : c.testBit 0
      · rfl
      · exact absurd (hc0.mpr h) hodd
    have hmt : m.testBit 31 = false := by rw [htop, hct]
    rw [crcBitStep, specBitStep, if_neg hodd, if_neg (by rw [hmt]; simp)]
    exact ⟨hshiftR, hshiftL, hkey⟩

theorem crcRel_iterate {c m : Nat} (n : Nat) (h : CrcRel c m) :
    CrcRel (crcBitStep^[n] c) (specBitStep^[n] m) := by
  induction n with
  | zero => simpa using h
  | succ k ih =>
    rw [Function.iterate_succ_apply', Function.iterate_succ_apply']
    exact crcRel_bitStep ih

theorem crcRel_byteStep {c m b : Nat} (hb : b < 256) (h : CrcRel c m) :
    CrcRel (crcByteStep c b) (specByteStep m b) := by
  obtain ⟨hc, hm, hrel⟩ := h
  have hxc : c ^^^ b < 2 ^ 32 :=
    Nat.xor_lt_two_pow hc (Nat.lt_trans hb (by norm_num))
  have hrevb : rev 8 b < 2 ^ 8 := rev_lt 8 b
  have hshift : rev 8 b <<< 24 < 2 ^ 32 := by
    rw [Nat.shiftLeft_eq]
    calc rev 8 b * 2 ^ 24 < 2 ^ 8 * 2 ^ 24 :=
          (Nat.mul_lt_mul_right (by norm_num)).mpr hrevb
      _ = 2 ^ 32 := by norm_num
  have hxm : m ^^^ (rev 8 b <<< 24) < 2 ^ 32 := Nat.xor_lt_two_pow hm hshift
  refine crcRel_iterate 8 ⟨hxc, hxm, ?_⟩
  intro i hi
  rw [Nat.testBit_xor, Nat.testBit_xor, hrel i hi, Nat.testBit_shiftLeft]
  rcases Nat.lt_or_ge i 8 with hi8 | hi8
  · have h1 : (31 - i) ≥ 24 := by omega
    have h2 : 31 - i - 24 < 8 := by omega
    rw [decide_eq_true h1, Bool.true_and, testBit_rev_lt b h2,
      show 8 - 1 - (31 - i - 24) = i from by omega]
  · have h1 : ¬ ((31 - i) ≥ 24) := by omega
    have h256 : (256 : Nat) ≤ 2 ^ i := by
      calc (256 : Nat) = 2 ^ 8 := rfl
        _ ≤ 2 ^ i := Nat.pow_le_pow_right (by norm_num) hi8
    have h2 : b.testBit i = false :=
      Nat.testBit_lt_two_pow (Nat.lt_of_lt_of_le hb h256)
    rw [decide_eq_false h1, Bool.false_and, h2]

theorem crcRel_fold {c m : Nat} (l : List Nat) (hl : ∀ b ∈ l, b < 256)
    (h : CrcRel c m) :
    CrcRel (l.foldl crcByteStep c) (l.foldl specByteStep m) := by
  induction l generalizing c m with
  | nil => simpa using h
  | cons a t ih =>
    simp only [List.foldl_cons]
    exact ih (fun b hb => hl b (List.mem_cons_of_mem _ hb))
      (crcRel_byteStep (hl a (List.mem_cons_self a t)) h)

theorem rev32_eq_of_crcRel {c m : Nat} (h : CrcRel c m) : rev 32 m = c := by
  obtain ⟨hc, _, hrel⟩ := h
  apply Nat.eq_of_testBit_eq
  intro i
  rcases Nat.lt_or_ge i 32 with hi | hi
  · rw [testBit_rev_lt m hi, show 32 - 1 - i = 31 - i from by omega, hrel i hi]
  · rw [testBit_rev_ge m hi]
    exact (Nat.testBit_lt_two_pow (Nat.lt_of_lt_of_le hc
      (Nat.pow_le_pow_right (by norm_num) hi))).symm

/-- The code's reflected loop computes exactly the spec's described variant. -/
theorem calculate_eq_spec_variant (data : List Nat)
    (hdata : ∀ b ∈ data, b < 256) :
    calculate_sja1110_crc data = crc32_spec_variant (data.drop 16) := by
  have hl : ∀ b ∈ data.drop 16, b < 256 :=
    fun b hb => hdata b (List.drop_subset 16 data hb)
  have h := crcRel_fold (data.drop 16) hl crcRel_init
  rw [calculate_sja1110_crc, crc32_spec_variant, rev32_eq_of_crcRel h]

/-- `calculate_sja1110_crc` is standard CRC-32 (`zlib.crc32`) of the bytes
after the 16-byte header. -/
theorem calculate_eq_zlib (data : List Nat) :
    calculate_sja1110_crc data = zlib_crc32 (data.drop 16) := rfl

/-! ## Buffer lemmas -/

theorem le32_length (v : Nat) : (le32 v).length = 4 := rfl

theorem le32_mem_lt {b v : Nat} (h : b ∈ le32 v) : b < 256 := by
  simp only [le32, List.mem_cons, List.not_mem_nil, or_false] at h
  rcases h with h | h | h | h <;> subst h <;> exact Nat.mod_lt _ (by norm_num)

theorem wr_length {l bs : List Nat} {off : Nat} (h : off + bs.length ≤ l.length) :
    (wr l off bs).length = l.length := by
  simp only [wr, List.length_append, List.length_take, List.length_drop]
  omega

theorem wr_mem_lt {l bs : List Nat} {off : Nat}
    (hl : ∀ b ∈ l, b < 256) (hbs : ∀ b ∈ bs, b < 256) :
    ∀ b ∈ wr l off bs, b < 256 := by
  intro b hb
  simp only [wr, List.mem_append] at hb
  rcases hb with (hb | hb) | hb
  · exact hl b (List.take_subset _ _ hb)
  · exact hbs b hb
  · exact hl b (List.drop_subset _ _ hb)

/-- Writing 4 bytes at offset 12 does not change the buffer beyond offset 16. -/
theorem drop16_wr12 {l bs : List Nat} (hb : bs.length = 4) (hl : 16 ≤ l.length) :
    (wr l 12 bs).drop 16 = l.drop 16 := by
  rw [wr, hb]
  exact List.drop_left' (by simp [hb]; omega)

/-- Reading back a 32-bit little-endian field written at offset 12. -/
theorem readLE32_wr12_le32 {l : List Nat} {c : Nat} (hc : c < 2 ^ 32)
    (hl : 12 ≤ l.length) :
    readLE32 (wr l 12 (le32 c)) 12 = c := by
  have htake : (l.take 12).length = 12 := by simp; omega
  have hget : ∀ j, j < 4 → (wr l 12 (le32 c)).getD (12 + j) 0 = (le32 c).getD j 0 := by
    intro j hj
    rw [wr, List.getD_eq_getElem?_getD, List.getD_eq_getElem?_getD,
      List.getElem?_append_left (by simp [le32_length]; omega),
      List.getElem?_append_right (by rw [htake]; omega), htake,
      show 12 + j - 12 = j from by omega]
  have h0 := hget 0 (by norm_num)
  have h1 := hget 1 (by norm_num)
  have h2 := hget 2 (by norm_num)
  have h3 := hget 3 (by norm_num)
  rw [show (12 : Nat) + 0 = 12 from rfl] at h0
  rw [readLE32, h0, h1, h2, h3]
  show c % 256 + 256 * (c / 256 % 256) + 65536 * (c / 65536 % 256) +
    16777216 * (c / 16777216 % 256) = c
  omega

/-- Overwriting the same field twice keeps only the second write. -/
theorem wr_wr {l bs bs' : List Nat} {off : Nat} (h : bs.length = bs'.length)
    (hl : off + bs.length ≤ l.length) :
    wr (wr l off bs) off bs' = wr l off bs' := by
  have htake : (wr l off bs).take off = l.take off := by
    rw [wr, List.append_assoc]
    exact List.take_left' (by simp; omega)
  have hdrop : (wr l off bs).drop (off + bs'.length) = l.drop (off + bs'.length) := by
    rw [wr, ← h]
    exact List.drop_left' (by simp; omega)
  rw [wr, htake, hdrop, wr]

/-! ## CRC accumulator bounds -/

theorem crcBitStep_lt {c : Nat} (hc : c < 2 ^ 32) : crcBitStep c < 2 ^ 32 := by
  have h1 : c >>> 1 < 2 ^ 32 :=
    Nat.lt_of_le_of_lt (by simpa [Nat.shiftRight_eq_div_pow] using Nat.div_le_self c 2) hc
  rw [crcBitStep]
  split
  · exact Nat.xor_lt_two_pow h1 (by norm_num)
  · exact h1

theorem crcBitStep_iterate_lt {c : Nat} (n : Nat) (hc : c < 2 ^ 32) :
    crcBitStep^[n] c < 2 ^ 32 := by
  induction n with
  | zero => simpa using hc
  | succ k ih => rw [Function.iterate_succ_apply']; exact crcBitStep_lt ih

theorem crcByteStep_lt {c b : Nat} (hc : c < 2 ^ 32) (hb : b < 256) :
    crcByteStep c b < 2 ^ 32 :=
  crcBitStep_iterate_lt 8 (Nat.xor_lt_two_pow hc (Nat.lt_trans hb (by norm_num)))

theorem crcFold_lt {c : Nat} {l : List Nat} (hc : c < 2 ^ 32)
    (hl : ∀ b ∈ l, b < 256) : l.foldl crcByteStep c < 2 ^ 32 := by
  induction l generalizing c with
  | nil => simpa using hc
  | cons a t ih =>
    exact ih (crcByteStep_lt hc (hl a (List.mem_cons_self a t)))
      (fun b hb => hl b (List.mem_cons_of_mem _ hb))

theorem zlib_crc32_lt {l : List Nat} (hl : ∀ b ∈ l, b < 256) :
    zlib_crc32 l < 2 ^ 32 :=
  Nat.xor_lt_two_pow (crcFold_lt (by norm_num) hl) (by norm_num)

theorem calculate_sja1110_crc_lt {l : List Nat} (hl : ∀ b ∈ l, b < 256) :
    calculate_sja1110_crc l < 2 ^ 32 :=
  zlib_crc32_lt (fun b hb => hl b (List.drop_subset _ _ hb))

/-! ## Facts about the ProperConfig buffer -/

theorem properRaw_length : ProperConfig.raw_configuration.length = 596 := by
  decide

theorem properRaw_bytes_lt : ∀ b ∈ ProperConfig.raw_configuration, b < 256 := by
  decide

theorem stored_crc_lt : ProperConfig.stored_crc < 2 ^ 32 :=
  zlib_crc32_lt (wr_mem_lt properRaw_bytes_lt (fun _ hb => le32_mem_lt hb))

theorem proper_readback :
    readLE32 ProperConfig.generate_configuration 12 = ProperConfig.stored_crc :=
  readLE32_wr12_le32 stored_crc_lt (by rw [properRaw_length]; omega)

theorem proper_generate_length :
    ProperConfig.generate_configuration.length = 596 := by
  rw [ProperConfig.generate_configuration,
    wr_length (by rw [le32_length, properRaw_length]; omega)]
  exact properRaw_length

theorem wr_take12 {l : List Nat} (bs : List Nat) (h : 12 ≤ l.length) :
    (wr l 12 bs).take 12 = l.take 12 := by
  rw [wr, List.append_assoc]
  exact List.take_left' (by simp; omega)

/-! ## Injectivity of the CRC loop in its state and in each byte -/

theorem xor_right_cancel {a b r : Nat} (h : a ^^^ r = b ^^^ r) : a = b := by
  have h2 := congrArg (· ^^^ r) h
  simpa [Nat.xor_assoc] using h2

theorem xor_left_cancel {a b c : Nat} (h : c ^^^ a = c ^^^ b) : a = b := by
  have h2 := congrArg (c ^^^ ·) h
  simpa [← Nat.xor_assoc] using h2

theorem crcBitStep_testBit31 {c : Nat} (hc : c < 2 ^ 32) :
    (crcBitStep c).testBit 31 = decide (c &&& 1 = 1) := by
  have h32 : c.testBit 32 = false := Nat.testBit_lt_two_pow hc
  have hsr : (c >>> 1).testBit 31 = false := by
    rw [Nat.testBit_shiftRight, show (1 : Nat) + 31 = 32 from rfl, h32]
  rw [crcBitStep]
  by_cases h : c &&& 1 = 1
  · rw [if_pos h, Nat.testBit_xor, hsr, decide_eq_true h]
    decide
  · rw [if_neg h, hsr, decide_eq_false h]

theorem crcBitStep_inj {c c' : Nat} (hc : c < 2 ^ 32) (hc' : c' < 2 ^ 32)
    (h : crcBitStep c = crcBitStep c') : c = c' := by
  have hpar : (c &&& 1 = 1) ↔ (c' &&& 1 = 1) := by
    have h31 : (crcBitStep c).testBit 31 = (crcBitStep c').testBit 31 := by rw [h]
    rw [crcBitStep_testBit31 hc, crcBitStep_testBit31 hc'] at h31
    simpa using h31
  have hdiv : c >>> 1 = c' >>> 1 := by
    by_cases hodd : c &&& 1 = 1
    · have hodd' : c' &&& 1 = 1 := hpar.mp hodd
      rw [crcBitStep, crcBitStep, if_pos hodd, if_pos hodd'] at h
      exact xor_right_cancel h
    · have hodd' : ¬ (c' &&& 1 = 1) := fun hx => hodd (hpar.mpr hx)
      rw [crcBitStep, crcBitStep, if_neg hodd, if_neg hodd'] at h
      exact h
  have hd : c / 2 = c' / 2 := by
    simpa [Nat.shiftRight_eq_div_pow] using hdiv
  rw [Nat.and_one_is_mod, Nat.and_one_is_mod] at hpar
  omega

theorem crcBitStep_iterate_inj {c c' : Nat} (n : Nat) (hc : c < 2 ^ 32)
    (hc' : c' < 2 ^ 32) (h : crcBitStep^[n] c = crcBitStep^[n] c') : c = c' := by
  induction n with
  | zero => simpa using h
  | succ k ih =>
    rw [Function.iterate_succ_apply', Function.iterate_succ_apply'] at h
    exact ih (crcBitStep_inj (crcBitStep_iterate_lt k hc)
      (crcBitStep_iterate_lt k hc') h)

theorem crcByteStep_inj_state {c c' b : Nat} (hc : c < 2 ^ 32) (hc' : c' < 2 ^ 32)
    (hb : b < 256) (hne : c ≠ c') : crcByteStep c b ≠ crcByteStep c' b := by
  intro h
  have hb32 : b < 2 ^ 32 := Nat.lt_trans hb (by norm_num)
  have := crcBitStep_iterate_inj 8 (Nat.xor_lt_two_pow hc hb32)
    (Nat.xor_lt_two_pow hc' hb32) h
  exact hne (xor_right_cancel this)

theorem crcByteStep_inj_byte {c b b' : Nat} (hc : c < 2 ^ 32) (hb : b < 256)
    (hb' : b' < 256) (hne : b ≠ b') : crcByteStep c b ≠ crcByteStep c b' := by
  intro h
  have hb32 : b < 2 ^ 32 := Nat.lt_trans hb (by norm_num)
  have hb32' : b' < 2 ^ 32 := Nat.lt_trans hb' (by norm_num)
  have := crcBitStep_iterate_inj 8 (Nat.xor_lt_two_pow hc hb32)
    (Nat.xor_lt_two_pow hc hb32') h
  exact hne (xor_left_cancel this)

theorem crcFold_inj_state {l : List Nat} : ∀ {c c' : Nat}, c < 2 ^ 32 →
    c' < 2 ^ 32 → (∀ b ∈ l, b < 256) → c ≠ c' →
    l.foldl crcByteStep c ≠ l.foldl crcByteStep c' := by
  induction l with
  | nil => intro c c' _ _ _ hne; simpa using hne
  | cons a t ih =>
    intro c c' hc hc' hl hne
    have ha : a < 256 := hl a (List.mem_cons_self a t)
    simp only [List.foldl_cons]
    exact ih (crcByteStep_lt hc ha) (crcByteStep_lt hc' ha)
      (fun b hb => hl b (List.mem_cons_of_mem _ hb))
      (crcByteStep_inj_state hc hc' ha hne)

theorem crcFold_set_ne {l : List Nat} : ∀ {k : Nat} {c bNew : Nat}, c < 2 ^ 32 →
    (∀ b ∈ l, b < 256) → k < l.length → bNew < 256 → bNew ≠ l.getD k 0 →
    (l.set k bNew).foldl crcByteStep c ≠ l.foldl crcByteStep c := by
  induction l with
  | nil => intro k c bNew _ _ hk; simp at hk
  | cons a t ih =>
    intro k c bNew hc hl hk hb hne
    have ha : a < 256 := hl a (List.mem_cons_self a t)
    have ht : ∀ b ∈ t, b < 256 := fun b hb => hl b (List.mem_cons_of_mem _ hb)
    match k with
    | 0 =>
      simp only [List.set_cons_zero, List.foldl_cons]
      have hne0 : bNew ≠ a := by simpa using hne
      exact crcFold_inj_state (crcByteStep_lt hc hb) (crcByteStep_lt hc ha) ht
        (crcByteStep_inj_byte hc hb ha hne0)
    | k + 1 =>
      simp only [List.set_cons_succ, List.foldl_cons]
      exact ih (crcByteStep_lt hc ha) ht (by simpa using hk) hb (by simpa using hne)

/-! ## Sizes of the Ultrathink and Goldvip configurations -/

namespace Ultrathink

theorem create_device_header_length (timestamp : Nat) :
    (create_device_header timestamp).length = 36 := by
  simp [create_device_header, be32, be64]

theorem general_parameters_table_length :
    create_general_parameters_table.length = 144 := by decide

theorem port_configuration_table_length :
    create_port_configuration_table.length = 720 := by decide

theorem l2_forwarding_table_length :
    create_l2_forwarding_table.length = 192 := by decide

theorem stream_identification_table_length :
    create_frer_stream_identification_table.length = 528 := by decide

theorem sequence_generation_table_length :
    create_frer_sequence_generation_table.length = 400 := by decide

theorem sequence_recovery_table_length :
    create_frer_sequence_recovery_table.length = 784 := by decide

/-- The assembled switch configuration is 2804 bytes, 568 more than the
2236-byte platform size it is clipped to. -/
theorem assembled_switch_config_length (timestamp : Nat) :
    (assembled_switch_config timestamp).length = 2804 := by
  simp only [assembled_switch_config, List.length_append,
    create_device_header_length, general_parameters_table_length,
    port_configuration_table_length, l2_forwarding_table_length,
    stream_identification_table_length, sequence_generation_table_length,
    sequence_recovery_table_length]

/-- Since the assembly exceeds 2236 bytes, the padding branch is skipped and
the output is the truncation `switch_fw[:2236]`. -/
theorem generate_eq_truncation (timestamp : Nat) :
    generate_complete_firmware_switch timestamp =
      (assembled_switch_config timestamp).take 2236 := by
  rw [generate_complete_firmware_switch]
  rw [if_neg (by rw [assembled_switch_config_length]; omega)]

theorem generate_length (timestamp : Nat) :
    (generate_complete_firmware_switch timestamp).length = 2236 := by
  rw [generate_eq_truncation, List.length_take,
    assembled_switch_config_length]
  omega

end Ultrathink

namespace Goldvip

theorem fixed_part_length : fixed_part.length = 136 := by decide

theorem fill_length : ∀ (fuel : Nat) (fw : List Nat) (idx : Nat),
    2236 - fw.length ≤ 4 * fuel → fw.length % 4 = 0 →
    (fill fw idx fuel).length = max fw.length 2236 := by
  intro fuel
  induction fuel with
  | zero =>
    intro fw idx hle _
    rw [fill]
    omega
  | succ k ih =>
    intro fw idx hle hmod
    rw [fill]
    by_cases h : fw.length < 2236
    · rw [if_pos h, ih _ (idx + 1) (by simp [le32]; omega) (by simp [le32]; omega)]
      simp [le32]
      omega
    · rw [if_neg h]
      omega

theorem create_goldvip_switch_firmware_length :
    create_goldvip_switch_firmware.length = 2236 := by
  rw [create_goldvip_switch_firmware, List.length_take,
    fill_length 2236 fixed_part 0 (by rw [fixed_part_length]; omega)
      (by rw [fixed_part_length]),
    fixed_part_length]
  omega

end Goldvip

theorem pz_chunks : wr ProperConfig.raw_configuration 12 (le32 0) = pzChunk1 ++ pzChunk2 ++ pzChunk3 ++ pzChunk4 ++ pzChunk5 ++ pzChunk6 ++ pzChunk7 ++ pzChunk8 ++ pzChunk9 ++ pzChunk10 ++ pzChunk11 ++ pzChunk12 ++ pzChunk13 ++ pzChunk14 ++ pzChunk15 := by
  decide


theorem pzState1 : List.foldl crcByteStep 0xFFFFFFFF pzChunk1 = 0xFBAAB7EF := by
  decide


theorem pzState2 : List.foldl crcByteStep 0xFBAAB7EF pzChunk2 = 0x7D6842D1 := by
  decide


theorem pzState3 : List.foldl crcByteStep 0x7D6842D1 pzChunk3 = 0xF4ADF23B := by
  decide


theorem pzState4 : List.foldl crcByteStep 0xF4ADF23B pzChunk4 = 0xBC46526A := by
  decide


theorem pzState5 : List.foldl crcByteStep 0xBC46526A pzChunk5 = 0x152FB417 := by
  decide


theorem pzState6 : List.foldl crcByteStep 0x152FB417 pzChunk6 = 0xC0BAF1B0 := by
  decide


theorem pzState7 : List.foldl crcByteStep 0xC0BAF1B0 pzChunk7 = 0x514D6379 := by
  decide


theorem pzState8 : List.foldl crcByteStep 0x514D6379 pzChunk8 = 0x971F16E6 := by
  decide


theorem pzState9 : List.foldl crcByteStep 0x971F16E6 pzChunk9 = 0x2C12FC74 := by
  decide


theorem pzState10 : List.foldl crcByteStep 0x2C12FC74 pzChunk10 = 0x617E9FB6 := by
  decide


theorem pzState11 : List.foldl crcByteStep 0x617E9FB6 pzChunk11 = 0x66BF7DBD := by
  decide


theorem pzState12 : List.foldl crcByteStep 0x66BF7DBD pzChunk12 = 0xFF1EBA2E := by
  decide


theorem pzState13 : List.foldl crcByteStep 0xFF1EBA2E pzChunk13 = 0x43A256E4 := by
  decide


theorem pzState14 : List.foldl crcByteStep 0x43A256E4 pzChunk14 = 0x94A561CB := by
  decide


theorem pzState15 : List.foldl crcByteStep 0x94A561CB pzChunk15 = 0x8EFF16E2 := by
  decide


theorem properZeroed_crc : zlib_crc32 (wr ProperConfig.raw_configuration 12 (le32 0)) = 0x7100E91D := by
  rw [zlib_crc32, pz_chunks]
  simp only [List.foldl_append]
  rw [pzState1, pzState2, pzState3, pzState4, pzState5, pzState6, pzState7, pzState8, pzState9, pzState10, pzState11, pzState12, pzState13, pzState14, pzState15]
  decide


theorem pd_chunks : ProperConfig.generate_configuration.drop 16 = pdChunk1 ++ pdChunk2 ++ pdChunk3 ++ pdChunk4 ++ pdChunk5 ++ pdChunk6 ++ pdChunk7 ++ pdChunk8 ++ pdChunk9 ++ pdChunk10 ++ pdChunk11 ++ pdChunk12 ++ pdChunk13 ++ pdChunk14 ++ pdChunk15 := by
  decide


theorem pdState1 : List.foldl crcByteStep 0xFFFFFFFF pdChunk1 = 0x292D1884 := by
  decide


theorem pdState2 : List.foldl crcByteStep 0x292D1884 pdChunk2 = 0x6547438E := by
  decide


theorem pdState3 : List.foldl crcByteStep 0x6547438E pdChunk3 = 0x65AAFF5 := by
  decide


theorem pdState4 : List.foldl crcByteStep 0x65AAFF5 pdChunk4 = 0xE447052A := by
  decide


theorem pdState5 : List.foldl crcByteStep 0xE447052A pdChunk5 = 0x135497AE := by
  decide


theorem pdState6 : List.foldl crcByteStep 0x135497AE pdChunk6 = 0xB7119B8C := by
  decide


theorem pdState7 : List.foldl crcByteStep 0xB7119B8C pdChunk7 = 0x9C521497 := by
  decide


theorem pdState8 : List.foldl crcByteStep 0x9C521497 pdChunk8 = 0x9A4B2BD9 := by
  decide


theorem pdState9 : List.foldl crcByteStep 0x9A4B2BD9 pdChunk9 = 0x45E753A5 := by
  decide


theorem pdState10 : List.foldl crcByteStep 0x45E753A5 pdChunk10 = 0x54E946A9 := by
  decide


theorem pdState11 : List.foldl crcByteStep 0x54E946A9 pdChunk11 = 0x124160B7 := by
  decide


theorem pdState12 : List.foldl crcByteStep 0x124160B7 pdChunk12 = 0xA5114045 := by
  decide


theorem pdState13 : List.foldl crcByteStep 0xA5114045 pdChunk13 = 0x9D15CD21 := by
  decide


theorem pdState14 : List.foldl crcByteStep 0x9D15CD21 pdChunk14 = 0x7353795E := by
  decide


theorem pdState15 : List.foldl crcByteStep 0x7353795E pdChunk15 = 0x2DED1468 := by
  decide


theorem properDrop16_crc : zlib_crc32 (ProperConfig.generate_configuration.drop 16) = 0xD212EB97 := by
  rw [zlib_crc32, pd_chunks]
  simp only [List.foldl_append]
  rw [pdState1, pdState2, pdState3, pdState4, pdState5, pdState6, pdState7, pdState8, pdState9, pdState10, pdState11, pdState12, pdState13, pdState14, pdState15]
  decide


/-! ## Claim theorems -/

/-- Claim C1 (amended): `calculate_sja1110_crc` applied to a byte buffer
computes, over the bytes after the 16-byte header, exactly the CRC-32
variant the spec describes (polynomial 0x04C11DB7 processed LSB-first with
each input byte bit-reversed before folding, seed 0xFFFFFFFF, final
accumulator bit-reversed and complemented) — and that variant coincides with
the standard IEEE CRC-32 (`zlib.crc32`) of the same bytes, so no input
distinguishes the two. -/
theorem C1_crc_variant (data : List Nat) (hdata : ∀ b ∈ data, b < 256) :
    calculate_sja1110_crc data = crc32_spec_variant (data.drop 16) ∧
    calculate_sja1110_crc data = zlib_crc32 (data.drop 16) :=
  ⟨calculate_eq_spec_variant data hdata, calculate_eq_zlib data⟩

/-- Witness for C1 at the concrete buffer of seventeen zero bytes. -/
theorem C1_crc_variant_witness :
    (∀ b ∈ List.replicate 17 0, b < 256) ∧
    (calculate_sja1110_crc (List.replicate 17 0) =
        crc32_spec_variant ((List.replicate 17 0).drop 16) ∧
      calculate_sja1110_crc (List.replicate 17 0) =
        zlib_crc32 ((List.replicate 17 0).drop 16)) :=
  ⟨by decide, C1_crc_variant (List.replicate 17 0) (by decide)⟩

/-- Counterexample to C1 as stated: there is no input on which
`calculate_sja1110_crc` differs from `zlib.crc32` of the bytes after the
header — the claimed existence of such an input is false. -/
theorem C1_crc_variant_counterexample :
    ¬ ∃ data : List Nat,
      calculate_sja1110_crc data ≠ zlib_crc32 (data.drop 16) :=
  fun ⟨d, h⟩ => h (calculate_eq_zlib d)

/-- Claim C2 (amended): the buffer patched by `fix_goldvip_crc` (without the
GoldVIP substitution branch) stores at bytes 12..15 exactly
`calculate_sja1110_crc` of the final buffer, i.e. the CRC over `bytes[16:]`
reproduces the stored value; but `SJA1110ProperConfig.generate_configuration`
stores `zlib.crc32` of the whole buffer with bytes 12..15 zeroed, not a CRC
over `bytes[16:]`. -/
theorem C2_checksum_scope (data : List Nat) (h16 : 16 ≤ data.length)
    (hdata : ∀ b ∈ data, b < 256) :
    readLE32 (fix_goldvip_data false 0 data) 12 =
      calculate_sja1110_crc (fix_goldvip_data false 0 data) ∧
    readLE32 ProperConfig.generate_configuration 12 =
      zlib_crc32 (wr ProperConfig.raw_configuration 12 (le32 0)) := by
  constructor
  · show readLE32 (fixCrcPatched data) 12 = calculate_sja1110_crc (fixCrcPatched data)
    have hzlen : (fixCrcZeroed data).length = data.length :=
      wr_length (by rw [le32_length]; omega)
    have hzbytes : ∀ b ∈ fixCrcZeroed data, b < 256 :=
      wr_mem_lt hdata (fun _ hb => le32_mem_lt hb)
    have hclt : calculate_sja1110_crc (fixCrcZeroed data) < 2 ^ 32 :=
      calculate_sja1110_crc_lt hzbytes
    have hdrop : (wr (fixCrcZeroed data) 12
        (le32 (calculate_sja1110_crc (fixCrcZeroed data)))).drop 16 =
        (fixCrcZeroed data).drop 16 :=
      drop16_wr12 (le32_length _) (by omega)
    rw [fixCrcPatched, readLE32_wr12_le32 hclt (by omega)]
    conv_rhs => rw [calculate_eq_zlib]
    rw [hdrop]
    exact calculate_eq_zlib _
  · exact proper_readback

/-- Witness for C2 at the concrete buffer of twenty zero bytes. -/
theorem C2_checksum_scope_witness :
    16 ≤ (List.replicate 20 0).length ∧ (∀ b ∈ List.replicate 20 0, b < 256) ∧
    (readLE32 (fix_goldvip_data false 0 (List.replicate 20 0)) 12 =
        calculate_sja1110_crc (fix_goldvip_data false 0 (List.replicate 20 0)) ∧
      readLE32 ProperConfig.generate_configuration 12 =
        zlib_crc32 (wr ProperConfig.raw_configuration 12 (le32 0))) :=
  ⟨by decide, by decide, C2_checksum_scope (List.replicate 20 0) (by decide) (by decide)⟩

/-- Counterexample to C2 as stated: the checksum stored by
`generate_configuration` (0x7100E91D) is not the checksum of `bytes[16:]`
(0xD212EB97), because it is computed over the whole buffer with the CRC
field zeroed. -/
theorem C2_checksum_scope_counterexample :
    readLE32 ProperConfig.generate_configuration 12 ≠
      zlib_crc32 (ProperConfig.generate_configuration.drop 16) := by
  rw [proper_readback, properDrop16_crc,
    show ProperConfig.stored_crc =
      zlib_crc32 (wr ProperConfig.raw_configuration 12 (le32 0)) from rfl,
    properZeroed_crc]
  decide

/-- Claim C3: in both L2 forwarding tables the entry for the generator port
(port 4, the input port of the single redundancy policy hard-wired in the
code: stream from port 4 replicated to ports 2 and 3) has
`reachable_ports` equal to exactly the policy's output mask
`(1 << 2) | (1 << 3) = 0x00C`, and never the full port set 0x7FF. -/
theorem C3_generator_scoping :
    readLE32 ProperConfig.create_l2_forwarding_table (12 + 8 * 4) =
      (1 <<< 2) ||| (1 <<< 3) ∧
    readLE16 Ultrathink.create_l2_forwarding_table (16 + 16 * 4) =
      (1 <<< 2) ||| (1 <<< 3) ∧
    ((1 <<< 2) ||| (1 <<< 3) : Nat) = 0x00C ∧
    ((1 <<< 2) ||| (1 <<< 3) : Nat) ≠ 0x7FF :=
  ⟨by decide, by decide, by decide, by decide⟩

/-- Claim C4 (amended): when the assembled configuration (2804 bytes)
exceeds the 2236-byte platform capacity, `generate_complete_firmware`
does not fail — it returns the first 2236 bytes, silently truncating the
assembly; no size error exists in the code. -/
theorem C4_silent_truncation (timestamp : Nat) :
    (Ultrathink.assembled_switch_config timestamp).length = 2804 ∧
    2236 < (Ultrathink.assembled_switch_config timestamp).length ∧
    Ultrathink.generate_complete_firmware_switch timestamp =
      (Ultrathink.assembled_switch_config timestamp).take 2236 ∧
    (Ultrathink.generate_complete_firmware_switch timestamp).length = 2236 :=
  ⟨Ultrathink.assembled_switch_config_length timestamp,
   by rw [Ultrathink.assembled_switch_config_length]; omega,
   Ultrathink.generate_eq_truncation timestamp,
   Ultrathink.generate_length timestamp⟩

/-- Counterexample to C4 as stated: at timestamp 0 the assembly exceeds the
capacity, yet the builder returns the truncated 2236-byte buffer instead of
failing with a size error. -/
theorem C4_silent_truncation_counterexample :
    2236 < (Ultrathink.assembled_switch_config 0).length ∧
    Ultrathink.generate_complete_firmware_switch 0 =
      (Ultrathink.assembled_switch_config 0).take 2236 :=
  ⟨by rw [Ultrathink.assembled_switch_config_length]; omega,
   Ultrathink.generate_eq_truncation 0⟩

/-- Claim C5 (amended): the Ultrathink and GoldVIP builders always emit
exactly 2236 bytes, but `SJA1110ProperConfig.generate_configuration` emits a
596-byte blob, not the 2236-byte platform constant. -/
theorem C5_blob_sizes (timestamp : Nat) :
    (Ultrathink.generate_complete_firmware_switch timestamp).length = 2236 ∧
    Goldvip.create_goldvip_switch_firmware.length = 2236 ∧
    ProperConfig.generate_configuration.length = 596 :=
  ⟨Ultrathink.generate_length timestamp,
   Goldvip.create_goldvip_switch_firmware_length,
   proper_generate_length⟩

/-- Counterexample to C5 as stated: the proper-config builder's blob is 596
bytes, not 2236. -/
theorem C5_blob_sizes_counterexample :
    ProperConfig.generate_configuration.length = 596 ∧ (596 : Nat) ≠ 2236 :=
  ⟨proper_generate_length, by decide⟩

/-- Claim C6 (amended): in `SJA1110ProperConfig.create_l2_forwarding_table`
every port other than the generator port 4 — including every port with no
FRER role — gets `reachable_ports = broadcast_domain = 0x7FF`, the full
port set including the port itself (the source port is not excluded); in
`SJA1110FRERFirmware.create_l2_forwarding_table` ports 0 and 1 get the full
set minus themselves, the recovery ports 2 and 3 get the full set minus
themselves, ports 5 and 6 get 0x7EF and 0x7DF (each clearing bit p-1, not
bit p), and ports 7..10 get 0x000. -/
theorem C6_forwarding_defaults :
    (∀ p, p < 11 → p ≠ 4 →
      readLE32 ProperConfig.create_l2_forwarding_table (12 + 8 * p) = 0x7FF ∧
      readLE32 ProperConfig.create_l2_forwarding_table (12 + 8 * p + 4) = 0x7FF) ∧
    (∀ p, p < 11 →
      readLE16 Ultrathink.create_l2_forwarding_table (16 + 16 * p) =
        [0x7FE, 0x7FD, 0x7FB, 0x7F7, 0x00C, 0x7EF, 0x7DF,
         0, 0, 0, 0].getD p 0) ∧
    readLE16 Ultrathink.create_l2_forwarding_table (16 + 16 * 5) =
      0x7FF ^^^ (1 <<< 4) ∧
    readLE16 Ultrathink.create_l2_forwarding_table (16 + 16 * 5) ≠
      0x7FF ^^^ (1 <<< 5) :=
  ⟨by decide, by decide, by decide, by decide⟩

/-- Witness for C6 at ports 0 and 5. -/
theorem C6_forwarding_defaults_witness :
    (0 < 11 ∧ (0 : Nat) ≠ 4 ∧
      readLE32 ProperConfig.create_l2_forwarding_table (12 + 8 * 0) = 0x7FF) ∧
    (5 < 11 ∧
      readLE16 Ultrathink.create_l2_forwarding_table (16 + 16 * 5) =
        [0x7FE, 0x7FD, 0x7FB, 0x7F7, 0x00C, 0x7EF, 0x7DF,
         0, 0, 0, 0].getD 5 0) :=
  ⟨⟨by decide, by decide, (C6_forwarding_defaults.1 0 (by decide) (by decide)).1⟩,
   ⟨by decide, C6_forwarding_defaults.2.1 5 (by decide)⟩⟩

/-- Counterexample to C6 as stated: port 0 of the proper-config table has no
FRER role, yet its `reachable_ports` is the full set 0x7FF rather than the
full set minus itself (0x7FE). -/
theorem C6_forwarding_defaults_counterexample :
    readLE32 ProperConfig.create_l2_forwarding_table 12 = 0x7FF ∧
    readLE32 ProperConfig.create_l2_forwarding_table (12 + 4) = 0x7FF ∧
    (0x7FF : Nat) ≠ 0x7FE :=
  ⟨by decide, by decide, by decide⟩

/-- Claim C7 (amended): `SJA1110ProperConfig.generate_configuration` has the
16-byte header `device_id, version, timestamp, checksum` with the checksum
at bytes 12..15 and the first table at offset 16; but
`SJA1110FRERFirmware.create_device_header` returns a 36-byte header
(device id, version, a 64-bit timestamp, feature flags, 16 reserved bytes)
with no checksum field. -/
theorem C7_header_layout (timestamp : Nat) :
    (Ultrathink.create_device_header timestamp).length = 36 ∧
    ProperConfig.generate_configuration.take 12 =
      le32 ProperConfig.DEVICE_ID ++ le32 0x100 ++ le32 0 ∧
    readLE32 ProperConfig.generate_configuration 12 = ProperConfig.stored_crc ∧
    ProperConfig.generate_configuration.drop 16 =
      ProperConfig.create_l2_forwarding_table ++
      ProperConfig.create_mac_config_table ++
      ProperConfig.create_l2_forwarding_params ++
      ProperConfig.create_general_params ++
      ProperConfig.create_vlan_lookup_table ++
      ProperConfig.create_xmii_params := by
  refine ⟨Ultrathink.create_device_header_length timestamp, ?_, proper_readback, ?_⟩
  · rw [ProperConfig.generate_configuration,
      wr_take12 _ (by rw [properRaw_length]; omega)]
    decide
  · rw [ProperConfig.generate_configuration,
      drop16_wr12 (le32_length _) (by rw [properRaw_length]; omega)]
    decide

/-- Counterexample to C7 as stated: the Ultrathink device header is 36
bytes, not 16. -/
theorem C7_header_layout_counterexample :
    (Ultrathink.create_device_header 0).length = 36 ∧ (36 : Nat) ≠ 16 :=
  ⟨Ultrathink.create_device_header_length 0, by decide⟩

/-- Claim C8 (amended): the code does guess at runtime —
`analyze_original_detailed` tries the CRC byte ranges `data[16:]`,
`data[12:]` and `data[4:12]` in order until one matches the header field,
and `fix_goldvip_crc` overwrites the computed checksum with the previously
observed GoldVIP checksum whenever the reference binary is available. -/
theorem C8_runtime_guessing (data : List Nat) :
    (zlib_crc32 (data.drop 16) = field3 data →
      crc_method data = CrcMethod.range16) ∧
    (zlib_crc32 (data.drop 16) ≠ field3 data →
      zlib_crc32 (data.drop 12) = field3 data →
      crc_method data = CrcMethod.range12) ∧
    (zlib_crc32 (data.drop 16) ≠ field3 data →
      zlib_crc32 (data.drop 12) ≠ field3 data →
      zlib_crc32 ((data.drop 4).take 8) = field3 data →
      crc_method data = CrcMethod.range4_12) ∧
    (∀ origCrc, origCrc < 2 ^ 32 → 16 ≤ data.length →
      readLE32 (fix_goldvip_data true origCrc data) 12 = origCrc) := by
  refine ⟨?_, ?_, ?_, ?_⟩
  · intro h1
    rw [crc_method, if_pos h1]
  · intro h1 h2
    rw [crc_method, if_neg h1, if_pos h2]
  · intro h1 h2 h3
    rw [crc_method, if_neg h1, if_neg h2, if_pos h3]
  · intro origCrc horig hlen
    have hp : (fixCrcPatched data).length = data.length := by
      rw [fixCrcPatched, wr_length, fixCrcZeroed,
        wr_length (by rw [le32_length]; omega)]
      rw [fixCrcZeroed, wr_length (by rw [le32_length]; omega), le32_length]
      omega
    show readLE32 (wr (fixCrcPatched data) 12 (le32 origCrc)) 12 = origCrc
    exact readLE32_wr12_le32 horig (by omega)

/-- Witness for C8: a 16-byte probe whose header field matches only the
third candidate range `data[4:12]`, and the GoldVIP substitution at a
20-byte buffer. -/
theorem C8_runtime_guessing_witness :
    (zlib_crc32 ((List.replicate 12 0 ++ le32 0x6522DF69).drop 16) ≠
        field3 (List.replicate 12 0 ++ le32 0x6522DF69) ∧
      zlib_crc32 ((List.replicate 12 0 ++ le32 0x6522DF69).drop 12) ≠
        field3 (List.replicate 12 0 ++ le32 0x6522DF69) ∧
      zlib_crc32 (((List.replicate 12 0 ++ le32 0x6522DF69).drop 4).take 8) =
        field3 (List.replicate 12 0 ++ le32 0x6522DF69) ∧
      crc_method (List.replicate 12 0 ++ le32 0x6522DF69) =
        CrcMethod.range4_12) ∧
    (0xDEADBEEF < 2 ^ 32 ∧ 16 ≤ (List.replicate 20 0).length ∧
      readLE32 (fix_goldvip_data true 0xDEADBEEF (List.replicate 20 0)) 12 =
        0xDEADBEEF) :=
  ⟨⟨by decide, by decide, by decide,
    (C8_runtime_guessing (List.replicate 12 0 ++ le32 0x6522DF69)).2.2.1
      (by decide) (by decide) (by decide)⟩,
   ⟨by decide, by decide,
    (C8_runtime_guessing (List.replicate 20 0)).2.2.2 0xDEADBEEF
      (by decide) (by decide)⟩⟩

/-- Counterexample to C8 as stated: on the probe buffer the analyzer settles
on the alternative byte range `data[4:12]` after the first two candidates
fail, and `fix_goldvip_crc` stores the previously observed checksum
0xDEADBEEF, which differs from the checksum it itself computed. -/
theorem C8_runtime_guessing_counterexample :
    crc_method (List.replicate 12 0 ++ le32 0x6522DF69) =
      CrcMethod.range4_12 ∧
    CrcMethod.range4_12 ≠ CrcMethod.range16 ∧
    readLE32 (fix_goldvip_data true 0xDEADBEEF (List.replicate 20 0)) 12 =
      0xDEADBEEF ∧
    readLE32 (fix_goldvip_data true 0xDEADBEEF (List.replicate 20 0)) 12 ≠
      calculate_sja1110_crc
        (fix_goldvip_data true 0xDEADBEEF (List.replicate 20 0)) :=
  ⟨by decide, by decide, by decide, by decide⟩

/-- Claim C9 (amended): `calculate_sja1110_crc` is a pure function, and
changing a single byte at any position inside the checksummed range
(positions 16 and beyond) always changes the returned checksum; positions
0..15 lie outside the checksummed range and never affect it. -/
theorem C9_single_byte_sensitivity (data : List Nat) (k : Nat) (bNew : Nat)
    (hk16 : 16 ≤ k) (hk : k < data.length) (hdata : ∀ b ∈ data, b < 256)
    (hb : bNew < 256) (hne : bNew ≠ data.getD k 0) :
    calculate_sja1110_crc (data.set k bNew) ≠ calculate_sja1110_crc data ∧
    ∀ j, j < 16 → ∀ bAny,
      calculate_sja1110_crc (data.set j bAny) = calculate_sja1110_crc data := by
  constructor
  · intro h
    have hdrop : (data.set k bNew).drop 16 = (data.drop 16).set (k - 16) bNew := by
      rw [List.drop_set, if_neg (by omega)]
    have hgd : (data.drop 16).getD (k - 16) 0 = data.getD k 0 := by
      rw [List.getD_eq_getElem?_getD, List.getD_eq_getElem?_getD,
        List.getElem?_drop, show 16 + (k - 16) = k from by omega]
    rw [calculate_sja1110_crc, calculate_sja1110_crc, hdrop] at h
    have hfold := xor_right_cancel h
    exact crcFold_set_ne (by norm_num)
      (fun b hb => hdata b (List.drop_subset _ _ hb))
      (by rw [List.length_drop]; omega) hb (by rw [hgd]; exact hne) hfold
  · intro j hj bAny
    rw [calculate_sja1110_crc, calculate_sja1110_crc,
      List.drop_set, if_pos (by omega)]

/-- Witness for C9: flipping byte 16 of a 17-byte zero buffer to 1 changes
the checksum, and bytes 0..15 never do. -/
theorem C9_single_byte_sensitivity_witness :
    16 ≤ 16 ∧ 16 < (List.replicate 17 0).length ∧
    (∀ b ∈ List.replicate 17 0, b < 256) ∧ 1 < 256 ∧
    (1 : Nat) ≠ (List.replicate 17 0).getD 16 0 ∧
    (calculate_sja1110_crc ((List.replicate 17 0).set 16 1) ≠
        calculate_sja1110_crc (List.replicate 17 0) ∧
      ∀ j, j < 16 → ∀ bAny,
        calculate_sja1110_crc ((List.replicate 17 0).set j bAny) =
          calculate_sja1110_crc (List.replicate 17 0)) :=
  ⟨by decide, by decide, by decide, by decide, by decide,
   C9_single_byte_sensitivity (List.replicate 17 0) 16 1 (by decide) (by decide)
     (by decide) (by decide) (by decide)⟩

/-- Counterexample to C9 as stated: changing byte 0 (inside the header,
outside the checksummed range) leaves the checksum unchanged. -/
theorem C9_single_byte_sensitivity_counterexample :
    calculate_sja1110_crc ((List.replicate 17 0).set 0 1) =
      calculate_sja1110_crc (List.replicate 17 0) := by
  decide

/-- Claim C10: the configuration produced by `generate_configuration` always
passes `verify_configuration`: the CRC stored at bytes 12..15 equals the CRC
recomputed over the buffer with bytes 12..15 zeroed. -/
theorem C10_generate_verifies :
    ProperConfig.verify_configuration ProperConfig.generate_configuration
      = true := by
  rw [ProperConfig.verify_configuration, ProperConfig.generate_configuration,
    wr_wr (by rw [le32_length, le32_length])
      (by rw [le32_length, properRaw_length]; omega),
    readLE32_wr12_le32 stored_crc_lt (by rw [properRaw_length]; omega)]
  exact beq_self_eq_true _


end SJA1110
